import Mathlib

/-!
Verification development for the MCP-Testing pipeline (testing_throughmcp).

The Python source is shallowly embedded: pure fragments become Lean
functions over `List Char` / `String` / `ℚ`, the JSON values produced by
`json.loads` become the inductive `Json`, and the orchestrator's control
flow becomes an explicit step function over stage outcomes.  Python float
arithmetic is modelled by exact rational arithmetic; Python `round` (which
rounds half to even on binary floats) is modelled by Mathlib's `round`
(half away from zero) — no statement below depends on tie behaviour.
-/

namespace MCPTesting

/-! ## Python string primitives (over `List Char`)

Python `str` operations used by the sources are re-implemented over
`List Char` with structural or fuel recursion so that every concrete
statement evaluates inside the kernel. -/

/-- Whitespace accepted by Python's `str.strip` / regex `\s` (ASCII part). -/
def pyIsSpace (c : Char) : Bool :=
  c = ' ' || c = '\t' || c = '\n' || c = '\r' || c = '\x0b' || c = '\x0c'

/-- Python `str.strip()` on a char list. -/
def pyStripL (cs : List Char) : List Char :=
  ((cs.dropWhile pyIsSpace).reverse.dropWhile pyIsSpace).reverse

/-- Python `str.strip()`. -/
def pyStrip (s : String) : String := String.mk (pyStripL s.toList)

/-- Python `str.lower()` (ASCII). -/
def pyLowerL (cs : List Char) : List Char := cs.map Char.toLower

/-- Is `pat` a prefix of `cs`?  (Python `str.startswith`.) -/
def isPrefixL : List Char → List Char → Bool
  | [], _ => true
  | _ :: _, [] => false
  | a :: as, b :: bs => a = b && isPrefixL as bs

/-- If `pat` is a prefix of `cs`, return the remainder. -/
def dropPrefixL : List Char → List Char → Option (List Char)
  | [], cs => some cs
  | _ :: _, [] => none
  | a :: as, b :: bs => if a = b then dropPrefixL as bs else none

/-- Does `cs` contain `pat` as a contiguous substring?  (Python `in`.) -/
def containsL (pat : List Char) : List Char → Bool
  | [] => pat.isEmpty
  | c :: cs => isPrefixL pat (c :: cs) || containsL pat cs

/-- Python `needle in hay` for strings. -/
def pyContains (hay needle : String) : Bool := containsL needle.toList hay.toList

/-- Split `cs` at the first occurrence of (non-empty) `sep`:
`some (before, after)` or `none` when `sep` does not occur. -/
def splitFirstL (sep : List Char) : List Char → Option (List Char × List Char)
  | [] => none
  | c :: cs =>
    match dropPrefixL sep (c :: cs) with
    | some rest => some ([], rest)
    | none => (splitFirstL sep cs).map (fun pr => (c :: pr.1, pr.2))

/-- Python `str.split(sep)` for a non-empty separator (fuel = length). -/
def pySplitL (sep : List Char) (cs : List Char) : Nat → List (List Char)
  | 0 => [cs]
  | fuel + 1 =>
    match splitFirstL sep cs with
    | none => [cs]
    | some (p, r) => p :: pySplitL sep r fuel

/-- Python `str.split(sep)` (non-empty `sep`). -/
def pySplit (s sep : String) : List String :=
  (pySplitL sep.toList s.toList (s.toList.length + 1)).map String.mk

/-- Python `str.replace(pat, rep)` for a non-empty pattern (fuel = length). -/
def pyReplaceL (pat rep cs : List Char) : Nat → List Char
  | 0 => cs
  | fuel + 1 =>
    match splitFirstL pat cs with
    | none => cs
    | some (p, r) => p ++ rep ++ pyReplaceL pat rep r fuel

/-- Python `str.replace(pat, rep)` (non-empty `pat`). -/
def pyReplace (s pat rep : String) : String :=
  String.mk (pyReplaceL pat.toList rep.toList s.toList (s.toList.length + 1))

/-- One decimal digit as a character (`n < 10`). -/
def natDigit (n : Nat) : Char := Char.ofNat (48 + n)

/-- Decimal digits of `n` (fuel-based, fuel = n + 1 always suffices). -/
def natDigitsAux : Nat → Nat → List Char
  | 0, _ => []
  | fuel + 1, n =>
    if n < 10 then [natDigit n] else natDigitsAux fuel (n / 10) ++ [natDigit (n % 10)]

/-- Decimal rendering of a natural number (Python `str(n)`). -/
def natStr (n : Nat) : String := String.mk (natDigitsAux (n + 1) n)

/-- Python `f"{n:03d}"`: zero-pad to width 3. -/
def pad3 (n : Nat) : String :=
  if n < 10 then "00" ++ natStr n else if n < 100 then "0" ++ natStr n else natStr n

/-! ## JSON values and `json.loads`

`Json` models the values produced by Python's `json.loads`; numbers are
exact rationals.  Duplicate object keys do not occur in any input used
below, so association-list lookup is first-match. -/

/-- A parsed JSON value (Python `json.loads` result). -/
inductive Json where
  | null
  | bool (b : Bool)
  | num (q : ℚ)
  | str (s : String)
  | arr (elems : List Json)
  | obj (fields : List (String × Json))

/-- Python truthiness of a JSON value (`if not x`). -/
def Json.truthy : Json → Bool
  | .null => false
  | .bool b => b
  | .num q => q ≠ 0
  | .str s => s ≠ ""
  | .arr l => !l.isEmpty
  | .obj kvs => !kvs.isEmpty

/-- Python `d[k]` / `d.get(k)` on a JSON object (first match; the inputs
used in this development never carry duplicate keys). -/
def Json.get? (j : Json) (k : String) : Option Json :=
  match j with
  | .obj kvs => (kvs.find? (fun kv => kv.1 = k)).map (·.2)
  | _ => none

/-- Python `k in d` on a JSON object. -/
def Json.hasKey (j : Json) (k : String) : Bool := (j.get? k).isSome

/-- JSON whitespace (`json.loads` skips exactly these). -/
def jsonWs (c : Char) : Bool := c = ' ' || c = '\t' || c = '\n' || c = '\r'

/-- Decode one JSON string-body escape character. -/
def unescapeChar (c : Char) : Option Char :=
  if c = '"' then some '"'
  else if c = '\\' then some '\\'
  else if c = '/' then some '/'
  else if c = 'n' then some '\n'
  else if c = 't' then some '\t'
  else if c = 'r' then some '\r'
  else if c = 'b' then some (Char.ofNat 8)
  else if c = 'f' then some (Char.ofNat 12)
  else none

/-- Parse a JSON string body (opening quote already consumed).  `\uXXXX`
escapes are not modelled (the parser rejects them; no input below uses
them). -/
def parseStringBody : List Char → Option (List Char × List Char)
  | [] => none
  | '"' :: rest => some ([], rest)
  | '\\' :: e :: rest =>
    match unescapeChar e with
    | some c => (parseStringBody rest).map (fun pr => (c :: pr.1, pr.2))
    | none => none
  | '\\' :: [] => none
  | c :: rest => (parseStringBody rest).map (fun pr => (c :: pr.1, pr.2))

/-- Digits to a natural number value (most significant first). -/
def digitsToNat (ds : List Char) : Nat :=
  ds.foldl (fun acc c => acc * 10 + (c.toNat - 48)) 0

/-- Parse a JSON number: optional minus, integer part, optional fraction.
Exponent notation is not modelled (no input below uses it). -/
def parseNumber (cs : List Char) : Option (ℚ × List Char) :=
  let (neg, cs1) := match cs with
    | '-' :: r => (true, r)
    | _ => (false, cs)
  let intDigits := cs1.takeWhile Char.isDigit
  let cs2 := cs1.dropWhile Char.isDigit
  if intDigits.isEmpty then none
  else
    let ip : ℚ := (digitsToNat intDigits : ℚ)
    match cs2 with
    | '.' :: r =>
      let fracDigits := r.takeWhile Char.isDigit
      let cs3 := r.dropWhile Char.isDigit
      if fracDigits.isEmpty then none
      else
        let fp : ℚ := (digitsToNat fracDigits : ℚ) / ((10 : ℚ) ^ fracDigits.length)
        some (if neg then -(ip + fp) else ip + fp, cs3)
    | _ => some (if neg then -ip else ip, cs2)

mutual

/-- Parse one JSON value (fuel strictly decreases at every call). -/
def parseVal : Nat → List Char → Option (Json × List Char)
  | 0, _ => none
  | fuel + 1, cs =>
    match cs.dropWhile jsonWs with
    | [] => none
    | 'n' :: r => (dropPrefixL "ull".toList r).map (fun r2 => (Json.null, r2))
    | 't' :: r => (dropPrefixL "rue".toList r).map (fun r2 => (Json.bool true, r2))
    | 'f' :: r => (dropPrefixL "alse".toList r).map (fun r2 => (Json.bool false, r2))
    | '"' :: r => (parseStringBody r).map (fun pr => (Json.str (String.mk pr.1), pr.2))
    | '[' :: r =>
      (match r.dropWhile jsonWs with
       | ']' :: r2 => some (Json.arr [], r2)
       | r2 => (parseArrTail fuel r2).map (fun pr => (Json.arr pr.1, pr.2)))
    | '{' :: r =>
      (match r.dropWhile jsonWs with
       | '}' :: r2 => some (Json.obj [], r2)
       | r2 => (parseObjTail fuel r2).map (fun pr => (Json.obj pr.1, pr.2)))
    | c :: r => (parseNumber (c :: r)).map (fun pr => (Json.num pr.1, pr.2))

/-- Parse `value (',' value)* ']'` in an array. -/
def parseArrTail : Nat → List Char → Option (List Json × List Char)
  | 0, _ => none
  | fuel + 1, cs =>
    match parseVal fuel cs with
    | none => none
    | some (v, r) =>
      match r.dropWhile jsonWs with
      | ',' :: r2 => (parseArrTail fuel r2).map (fun pr => (v :: pr.1, pr.2))
      | ']' :: r2 => some ([v], r2)
      | _ => none

/-- Parse `string ':' value (',' ...)* '}'` in an object. -/
def parseObjTail : Nat → List Char → Option (List (String × Json) × List Char)
  | 0, _ => none
  | fuel + 1, cs =>
    match cs.dropWhile jsonWs with
    | '"' :: r =>
      (match parseStringBody r with
       | none => none
       | some (k, r2) =>
         match r2.dropWhile jsonWs with
         | ':' :: r3 =>
           (match parseVal fuel r3 with
            | none => none
            | some (v, r4) =>
              match r4.dropWhile jsonWs with
              | ',' :: r5 =>
                (parseObjTail fuel r5).map (fun pr => ((String.mk k, v) :: pr.1, pr.2))
              | '}' :: r5 => some ([(String.mk k, v)], r5)
              | _ => none)
         | _ => none)
    | _ => none

end

/-- Python `json.loads`: parse one value, allow only trailing whitespace. -/
def json_loads (s : String) : Option Json :=
  match parseVal (2 * s.toList.length + 8) s.toList with
  | some (v, rest) => if (rest.dropWhile jsonWs).isEmpty then some v else none
  | none => none

/-! ## Simulated test executor (`test_executor.py`)

`TestExecutorAgent._calculate_pass_probability`: base pass rate 0.85,
priority and test-type adjustments, then clamped by
`max(0.1, min(0.95, p))`. -/

/-- The `pass_rate_mod` column of `TestExecutorAgent.priority_modifiers`. -/
def priority_pass_rate_mod (priority : String) : Option ℚ :=
  if priority = "critical" then some (-0.1)
  else if priority = "high" then some (-0.05)
  else if priority = "medium" then some 0
  else if priority = "low" then some 0.05
  else none

/-- Base pass rate (`self.pass_rate = 0.85`). -/
def base_pass_rate : ℚ := 0.85

/-- The probability accumulated by `_calculate_pass_probability` before
its final clamp: base rate, priority modifier, then the three test-type
substring adjustments. -/
def unclamped_pass_probability (priority testType : String) : ℚ :=
  let p0 := base_pass_rate
  let p1 := match priority_pass_rate_mod priority with
    | some m => p0 + m
    | none => p0
  let lowerType := String.mk (pyLowerL testType.toList)
  let p2 := if pyContains lowerType "security" then p1 - 0.15 else p1
  let p3 := if pyContains lowerType "validation" then p2 - 0.1 else p2
  if pyContains lowerType "functional" then p3 + 0.05 else p3

/-- `TestExecutorAgent._calculate_pass_probability`, as a function of the
test case's `priority` and `test_type` fields (the only fields it reads):
the accumulated probability, clamped by `max(0.1, min(0.95, _))`. -/
def calculate_pass_probability (priority testType : String) : ℚ :=
  max 0.1 (min 0.95 (unclamped_pass_probability priority testType))

/-- C10: for every test-case record, regardless of its priority and
test_type values, the simulated executor's computed pass probability lies
in [0.1, 0.95]; in particular it is strictly between 0 and 1, so no
simulated test is certain to pass or certain to fail. -/
theorem c10_pass_probability_clamped (priority testType : String) :
    (1 : ℚ) / 10 ≤ calculate_pass_probability priority testType ∧
    calculate_pass_probability priority testType ≤ 95 / 100 ∧
    0 < calculate_pass_probability priority testType ∧
    calculate_pass_probability priority testType < 1 := by
  have hlo : (1 : ℚ) / 10 ≤ calculate_pass_probability priority testType := by
    unfold calculate_pass_probability
    calc (1 : ℚ) / 10 = 0.1 := by norm_num
    _ ≤ _ := le_max_left _ _
  have hhi : calculate_pass_probability priority testType ≤ 95 / 100 := by
    unfold calculate_pass_probability
    refine max_le (by norm_num) ?_
    exact le_trans (min_le_left _ _) (by norm_num)
  exact ⟨hlo, hhi, lt_of_lt_of_le (by norm_num) hlo, lt_of_le_of_lt hhi (by norm_num)⟩

/-! ## Artifact persistence in the orchestrator (`orchestrator.py`)

`run_pipeline` names each stage artifact
`{kind}_{datetime.now().strftime('%Y%m%d_%H%M%S')}.json` and saves it with
`Path.write_text`, which truncates an existing file.  The file system is
modelled as an association list from file names to contents. -/

/-- The four artifact kinds persisted by the pipeline. -/
inductive ArtifactKind where
  | gapAnalysis
  | generatedTests
  | executionReport
  | analysisSummary
deriving DecidableEq

/-- The file-name stem the orchestrator uses for each artifact kind. -/
def kindStem : ArtifactKind → String
  | .gapAnalysis => "gap_analysis"
  | .generatedTests => "generated_tests"
  | .executionReport => "execution_report"
  | .analysisSummary => "analysis_summary"

/-- Artifact file name: `{kind}_{formatted timestamp}.json`.  The second
argument is the already-formatted `%Y%m%d_%H%M%S` timestamp string; the
name depends on nothing else (no counter, no disambiguation). -/
def artifactFileName (k : ArtifactKind) (ts : String) : String :=
  kindStem k ++ "_" ++ ts ++ ".json"

/-- A directory: file name to file content. -/
abbrev FileStore := List (String × String)

/-- `Path.write_text`: create the file or truncate an existing one. -/
def write_text (store : FileStore) (fname content : String) : FileStore :=
  (fname, content) :: store.filter (fun p => p.1 ≠ fname)

/-- Persist one artifact under its timestamped name. -/
def writeArtifact (store : FileStore) (k : ArtifactKind) (ts payload : String) : FileStore :=
  write_text store (artifactFileName k ts) payload

/-- C9 counterexample: persisting two gap-analysis artifacts with the same
formatted timestamp second produces a single file holding the second
payload — the file names are identical, not distinct, and the earlier
artifact is overwritten. -/
theorem c9_counterexample :
    writeArtifact (writeArtifact [] .gapAnalysis "20250101_120000" "first")
        .gapAnalysis "20250101_120000" "second"
      = [("gap_analysis_20250101_120000.json", "second")] ∧
    artifactFileName .gapAnalysis "20250101_120000"
      = artifactFileName .gapAnalysis "20250101_120000" := by
  constructor
  · rfl
  · rfl

/-- Entries kept by a `≠ n` filter never survive a subsequent `= n` filter. -/
theorem filter_ne_then_eq (n : String) (l : FileStore) :
    (l.filter (fun p => p.1 ≠ n)).filter (fun p => p.1 = n) = [] := by
  induction l with
  | nil => rfl
  | cons hd tl ih => by_cases h : hd.1 = n <;> simp [List.filter_cons, h, ih]

/-- C9 (amended): two same-kind artifacts written within the same
formatted-timestamp second receive the *same* file name, and the later
write replaces the earlier one — afterwards the store holds exactly one
entry under that name, whose content is the second payload. -/
theorem c9_same_second_overwrites (k : ArtifactKind) (ts c1 c2 : String)
    (store : FileStore) :
    (writeArtifact (writeArtifact store k ts c1) k ts c2).filter
        (fun p => p.1 = artifactFileName k ts)
      = [(artifactFileName k ts, c2)] := by
  unfold writeArtifact write_text
  simp [List.filter_cons, List.filter_filter, filter_ne_then_eq]

/-! ## Result analysis (`result_analyzer/analyze_results.py`)

`analyze_results` receives a JSON string holding a list of execution
result records; the embedding works on the already-parsed list (each
record carries the fields the function reads).  Counters are Python ints
(`Int` here, so the literal `executed - passed` subtraction is kept);
`pass_rate` and times are exact rationals in place of Python floats. -/

/-- One raw execution result record, with the fields `analyze_results`
reads (`status`, `execution_time`, `module`, plus identification). -/
structure ExecResult where
  test_id : String
  name : String
  module : String
  status : String
  execution_time : ℚ
  failure_details : String
deriving DecidableEq

/-- Number of records with the given status string. -/
def countStatus (results : List ExecResult) (s : String) : Nat :=
  (results.filter (fun r => r.status = s)).length

/-- The `summary` block computed by `analyze_results`. -/
structure AnalyzeSummary where
  total_tests : Int
  passed_tests : Int
  failed_tests : Int
  skipped_tests : Int
  pass_rate : ℚ
  avg_execution_time : ℚ
deriving DecidableEq

/-- The summary portion of `analyze_results` (lines 36–46): totals,
SKIPPED handled separately, `failed = executed - passed` guarded by
`executed >= 0`, `pass_rate = passed/executed*100` (0 when nothing
executed), and the average over *all* records. -/
def analyze_results (results : List ExecResult) : AnalyzeSummary :=
  let total : Int := results.length
  let skipped : Int := countStatus results "SKIPPED"
  let executed : Int := total - skipped
  let passed : Int := countStatus results "PASS"
  let failed : Int := if executed ≥ 0 then executed - passed else 0
  let passRate : ℚ := if executed > 0 then ((passed : ℚ) / (executed : ℚ)) * 100 else 0
  let avg : ℚ :=
    if total > 0 then (results.map (fun r => r.execution_time)).sum / (total : ℚ) else 0
  { total_tests := total
    passed_tests := passed
    failed_tests := failed
    skipped_tests := skipped
    pass_rate := passRate
    avg_execution_time := avg }

/-- Unfolding `countStatus` over a cons cell. -/
theorem countStatus_cons (r : ExecResult) (tl : List ExecResult) (s : String) :
    countStatus (r :: tl) s = (if r.status = s then 1 else 0) + countStatus tl s := by
  by_cases h : r.status = s <;> simp [countStatus, List.filter_cons, h, Nat.add_comm]

/-- Two distinct statuses never double-count a record. -/
theorem countStatus_two_le (results : List ExecResult) (s1 s2 : String)
    (hne : s1 ≠ s2) :
    countStatus results s1 + countStatus results s2 ≤ results.length := by
  induction results with
  | nil => simp [countStatus]
  | cons r tl ih =>
    rw [countStatus_cons, countStatus_cons, List.length_cons]
    by_cases h1 : r.status = s1
    · have h2 : ¬ r.status = s2 := fun h => hne (h1.symm.trans h)
      rw [if_pos h1, if_neg h2]; omega
    · by_cases h2 : r.status = s2
      · rw [if_neg h1, if_pos h2]; omega
      · rw [if_neg h1, if_neg h2]; omega

/-- A single status count never exceeds the number of records. -/
theorem countStatus_le (results : List ExecResult) (s : String) :
    countStatus results s ≤ results.length :=
  List.length_filter_le _ _

/-- C3: for every list of execution result records, the analysis overview
satisfies executed = total − skipped, passed + failed = executed, pass_rate
∈ [0, 100], and pass_rate = 0 when executed = 0. -/
theorem c3_overview_invariants (results : List ExecResult) :
    (analyze_results results).passed_tests + (analyze_results results).failed_tests
        = (analyze_results results).total_tests - (analyze_results results).skipped_tests ∧
    0 ≤ (analyze_results results).pass_rate ∧
    (analyze_results results).pass_rate ≤ 100 ∧
    ((analyze_results results).total_tests - (analyze_results results).skipped_tests = 0 →
      (analyze_results results).pass_rate = 0) := by
  have hskip : countStatus results "SKIPPED" ≤ results.length := countStatus_le _ _
  have hdisj : countStatus results "PASS" + countStatus results "SKIPPED"
      ≤ results.length := countStatus_two_le _ _ _ (by decide)
  unfold analyze_results
  simp only
  set total : Int := (results.length : Int) with htotal
  set skipped : Int := (countStatus results "SKIPPED" : Int) with hskipped
  set passed : Int := (countStatus results "PASS" : Int) with hpassed
  have hexec_nonneg : 0 ≤ total - skipped := by
    rw [htotal, hskipped]; omega
  have hpassed_le : passed ≤ total - skipped := by
    rw [htotal, hskipped, hpassed]; omega
  have hpassed_nonneg : (0 : Int) ≤ passed := by rw [hpassed]; positivity
  refine ⟨?_, ?_, ?_, ?_⟩
  · rw [if_pos hexec_nonneg]; ring
  · by_cases hpos : total - skipped > 0
    · rw [if_pos hpos]
      have : (0 : ℚ) ≤ ((passed : ℚ) / ((total - skipped : Int) : ℚ)) := by
        apply div_nonneg
        · exact_mod_cast hpassed_nonneg
        · exact_mod_cast le_of_lt hpos
      push_cast at this ⊢
      nlinarith
    · rw [if_neg hpos]
  · by_cases hpos : total - skipped > 0
    · rw [if_pos hpos]
      have hratio : ((passed : ℚ) / ((total - skipped : Int) : ℚ)) ≤ 1 := by
        rw [div_le_one (by exact_mod_cast hpos)]
        exact_mod_cast hpassed_le
      push_cast at hratio ⊢
      nlinarith
    · rw [if_neg hpos]; norm_num
  · intro hz
    rw [if_neg (by omega)]

/-- The C7 input: 10 execution records, 2 with a failure indicator, 1 with
a skip indicator, 7 passing (statuses as `run_tests.py` produces them). -/
def c7_input : List ExecResult :=
  [ { test_id := "t1", name := "t1", module := "m", status := "PASS",
      execution_time := 1, failure_details := "" },
    { test_id := "t2", name := "t2", module := "m", status := "PASS",
      execution_time := 1, failure_details := "" },
    { test_id := "t3", name := "t3", module := "m", status := "PASS",
      execution_time := 1, failure_details := "" },
    { test_id := "t4", name := "t4", module := "m", status := "PASS",
      execution_time := 1, failure_details := "" },
    { test_id := "t5", name := "t5", module := "m", status := "PASS",
      execution_time := 1, failure_details := "" },
    { test_id := "t6", name := "t6", module := "m", status := "PASS",
      execution_time := 1, failure_details := "" },
    { test_id := "t7", name := "t7", module := "m", status := "PASS",
      execution_time := 1, failure_details := "" },
    { test_id := "t8", name := "t8", module := "m", status := "FAIL",
      execution_time := 1, failure_details := "boom" },
    { test_id := "t9", name := "t9", module := "m", status := "FAIL",
      execution_time := 1, failure_details := "boom" },
    { test_id := "t10", name := "t10", module := "m", status := "SKIPPED",
      execution_time := 1, failure_details := "" } ]

/-- C7 counterexample: on 10 records with 2 failures and 1 skip the code
produces total = 10, skipped = 1, passed = 7, failed = 2 as claimed, but
pass_rate is exactly 700/9 = 77.77…, never the claimed 77.78 — the code
performs no rounding. -/
theorem c7_counterexample :
    (analyze_results c7_input).total_tests = 10 ∧
    (analyze_results c7_input).skipped_tests = 1 ∧
    (analyze_results c7_input).passed_tests = 7 ∧
    (analyze_results c7_input).failed_tests = 2 ∧
    (analyze_results c7_input).pass_rate ≠ 7778 / 100 := by
  have hp : countStatus c7_input "PASS" = 7 := by decide
  have hs : countStatus c7_input "SKIPPED" = 1 := by decide
  have hl : c7_input.length = 10 := by decide
  refine ⟨by decide, by decide, by decide, by decide, ?_⟩
  unfold analyze_results
  simp only [hp, hs, hl]
  norm_num

/-- C7 (amended): on that input the overview is total = 10, skipped = 1,
executed = 9, passed = 7, failed = 2, and pass_rate = 700/9 — which is
within 0.005 of 77.78, i.e. 77.78 once rounded to two decimals (the code
itself reports the unrounded value). -/
theorem c7_exact_values :
    (analyze_results c7_input).total_tests = 10 ∧
    (analyze_results c7_input).skipped_tests = 1 ∧
    (analyze_results c7_input).total_tests - (analyze_results c7_input).skipped_tests = 9 ∧
    (analyze_results c7_input).passed_tests = 7 ∧
    (analyze_results c7_input).failed_tests = 2 ∧
    (analyze_results c7_input).pass_rate = 700 / 9 ∧
    |(analyze_results c7_input).pass_rate - 7778 / 100| ≤ 5 / 1000 := by
  have hp : countStatus c7_input "PASS" = 7 := by decide
  have hs : countStatus c7_input "SKIPPED" = 1 := by decide
  have hl : c7_input.length = 10 := by decide
  have hrate : (analyze_results c7_input).pass_rate = 700 / 9 := by
    unfold analyze_results
    simp only [hp, hs, hl]
    norm_num
  refine ⟨by decide, by decide, by decide, by decide, by decide, hrate, ?_⟩
  rw [hrate, abs_le]
  norm_num

/-- C3 witness: the invariants instantiated at the empty record list,
where nothing is executed and the pass rate hypothesis fires. -/
theorem c3_witness :
    (analyze_results []).passed_tests + (analyze_results []).failed_tests
        = (analyze_results []).total_tests - (analyze_results []).skipped_tests ∧
    0 ≤ (analyze_results []).pass_rate ∧
    (analyze_results []).pass_rate ≤ 100 ∧
    (analyze_results []).pass_rate = 0 :=
  ⟨(c3_overview_invariants []).1, (c3_overview_invariants []).2.1,
   (c3_overview_invariants []).2.2.1, (c3_overview_invariants []).2.2.2 (by decide)⟩

/-! ## Statistics engine (`result_analyzer/result_analyzer.py`)

`ResultAnalyzerAgent._calculate_statistics` consumes an execution report
dict: the `overview` block is copied from the report's own `summary`
fields, while the failure buckets are folded over the collected test
records (`defaultdict` modelled as an insertion-ordered association
list). -/

/-- One test record inside `execution_results`; `Option` fields model the
`.get(key, default)` accesses. -/
structure StatTest where
  test_id : Option String
  test_name : Option String
  module : Option String
  category : Option String
  priority : Option String
  status : Option String
  execution_time_seconds : Option ℚ
deriving DecidableEq

/-- The two layouts `_calculate_statistics` accepts for
`execution_results`. -/
inductive ExecutionResults where
  | flat (tests : List StatTest)
  | structured (baseline ai : List StatTest)
deriving DecidableEq

/-- The execution report fields `_calculate_statistics` reads. -/
structure ExecutionReport where
  summary_total_tests : ℚ
  summary_passed : ℚ
  summary_failed : ℚ
  summary_pass_rate_percentage : ℚ
  summary_total_execution_time_seconds : ℚ
  execution_results : ExecutionResults
deriving DecidableEq

/-- The `all_tests` list collected by the two input-layout branches. -/
def all_tests : ExecutionResults → List StatTest
  | .flat l => l
  | .structured baseline ai => baseline ++ ai

/-- One `defaultdict` entry: grouping key, total count, failed count. -/
structure RawBucket where
  key : String
  total : Nat
  failed : Nat
deriving DecidableEq

/-- `stats[...][key]["total"] += 1` (and conditionally `"failed"`), on an
insertion-ordered association list standing for the `defaultdict`. -/
def bumpBucket (key : String) (isFailed : Bool) : List RawBucket → List RawBucket
  | [] => [⟨key, 1, if isFailed then 1 else 0⟩]
  | b :: rest =>
    if b.key = key then
      ⟨b.key, b.total + 1, if isFailed then b.failed + 1 else b.failed⟩ :: rest
    else b :: bumpBucket key isFailed rest

/-- Fold one grouping dimension over the collected tests (a test counts as
failed exactly when its status is the string `"FAILED"`). -/
def dimensionBuckets (keyOf : StatTest → String) (tests : List StatTest) : List RawBucket :=
  tests.foldl (fun m t => bumpBucket (keyOf t) (t.status = some "FAILED") m) []

/-- `test.get("module", "Unknown")`. -/
def moduleKey (t : StatTest) : String := t.module.getD "Unknown"

/-- `test.get("category", "Unknown")`. -/
def categoryKey (t : StatTest) : String := t.category.getD "Unknown"

/-- `test.get("priority", "medium")`. -/
def priorityKey (t : StatTest) : String := t.priority.getD "medium"

/-- Python `round(q, 2)`.  (Python rounds half to even on floats; Mathlib's
`round` rounds half away from zero — no statement below hits a tie.) -/
def round2 (q : ℚ) : ℚ := ((round (q * 100) : ℤ) : ℚ) / 100

/-- A finished bucket, with its failure rate. -/
structure DimBucket where
  key : String
  total : Nat
  failed : Nat
  failure_rate : ℚ
deriving DecidableEq

/-- `data["failure_rate"] = round((failed/total*100) if total > 0 else 0, 2)`. -/
def finishBucket (b : RawBucket) : DimBucket :=
  ⟨b.key, b.total, b.failed,
    round2 (if b.total > 0 then (b.failed : ℚ) / (b.total : ℚ) * 100 else 0)⟩

/-- `test.get("execution_time_seconds", 0)`. -/
def execTimeOf (t : StatTest) : ℚ := t.execution_time_seconds.getD 0

/-- Stable insertion into a time-ascending list. -/
def insertByTime (t : StatTest) : List StatTest → List StatTest
  | [] => [t]
  | h :: rest =>
    if execTimeOf t < execTimeOf h then t :: h :: rest else h :: insertByTime t rest

/-- `sorted(all_tests, key=lambda x: x.get("execution_time_seconds", 0))`
(stable, ascending). -/
def sortByTime (l : List StatTest) : List StatTest :=
  l.foldl (fun acc t => insertByTime t acc) []

/-- One `{"test_id": ..., "time": ...}` entry of the performance lists. -/
structure PerfEntry where
  test_id : String
  time : ℚ
deriving DecidableEq

/-- Project a test record onto a performance entry. -/
def toPerfEntry (t : StatTest) : PerfEntry :=
  ⟨t.test_id.getD "Unknown", execTimeOf t⟩

/-- One `test_distribution` entry (total / passed / failed). -/
structure TestDistStat where
  total : Nat
  passed : Nat
  failed : Nat
deriving DecidableEq

/-- Distribution counters over one list: passed iff status = `"PASSED"`,
everything else counts as failed. -/
def distOf (tests : List StatTest) : TestDistStat :=
  ⟨tests.length,
   (tests.filter (fun t => t.status = some "PASSED")).length,
   (tests.filter (fun t => ¬ t.status = some "PASSED")).length⟩

/-- The statistics record `_calculate_statistics` returns (fields the
claims and the fallback-insight generator read). -/
structure CalcStats where
  overview_total_tests : ℚ
  overview_passed : ℚ
  overview_failed : ℚ
  overview_pass_rate : ℚ
  overview_execution_duration : ℚ
  by_module : List DimBucket
  by_category : List DimBucket
  by_priority : List DimBucket
  slowest_tests : List PerfEntry
  fastest_tests : List PerfEntry
  average_execution_time : ℚ
  total_execution_time : ℚ
  baseline_dist : TestDistStat
  ai_dist : TestDistStat
deriving DecidableEq

/-- `ResultAnalyzerAgent._calculate_statistics`.  The overview is copied
from the report's `summary` block; the buckets, performance lists and
distribution are computed from the collected records. -/
def calculate_statistics (r : ExecutionReport) : CalcStats :=
  let allT := all_tests r.execution_results
  let sorted := sortByTime allT
  let totalTime := (allT.map execTimeOf).sum
  { overview_total_tests := r.summary_total_tests
    overview_passed := r.summary_passed
    overview_failed := r.summary_failed
    overview_pass_rate := r.summary_pass_rate_percentage
    overview_execution_duration := r.summary_total_execution_time_seconds
    by_module := (dimensionBuckets moduleKey allT).map finishBucket
    by_category := (dimensionBuckets categoryKey allT).map finishBucket
    by_priority := (dimensionBuckets priorityKey allT).map finishBucket
    slowest_tests := ((sorted.drop (sorted.length - 3)).map toPerfEntry)
    fastest_tests := ((sorted.take 3).map toPerfEntry)
    average_execution_time :=
      if allT.isEmpty then 0 else round2 (totalTime / (allT.length : ℚ))
    total_execution_time := if allT.isEmpty then 0 else round2 totalTime
    baseline_dist :=
      match r.execution_results with
      | .flat _ => ⟨0, 0, 0⟩
      | .structured baseline _ => distOf baseline
    ai_dist :=
      match r.execution_results with
      | .flat l => distOf l
      | .structured _ ai => distOf ai }

/-- Sum of the `total` counters over a raw bucket list. -/
def sumTotals (l : List RawBucket) : Nat := (l.map (fun b => b.total)).sum

/-- A bump adds exactly one to the summed totals. -/
theorem sumTotals_bump (key : String) (isFailed : Bool) (m : List RawBucket) :
    sumTotals (bumpBucket key isFailed m) = sumTotals m + 1 := by
  induction m with
  | nil => simp [bumpBucket, sumTotals]
  | cons b rest ih =>
    by_cases h : b.key = key
    · simp [bumpBucket, h, sumTotals, List.map_cons]; ring
    · simp only [bumpBucket, h, if_false, ite_false, sumTotals, List.map_cons,
        List.sum_cons] at *
      omega

/-- Folding a dimension over `tests` sums its totals to `tests.length`. -/
theorem sumTotals_dimensionBuckets (keyOf : StatTest → String) (tests : List StatTest) :
    sumTotals (dimensionBuckets keyOf tests) = tests.length := by
  have aux : ∀ (l : List StatTest) (init : List RawBucket),
      sumTotals (l.foldl (fun m t => bumpBucket (keyOf t) (t.status = some "FAILED") m) init)
        = sumTotals init + l.length := by
    intro l
    induction l with
    | nil => intro init; simp
    | cons t rest ih =>
      intro init
      simp only [List.foldl_cons, List.length_cons]
      rw [ih, sumTotals_bump]
      omega
  have := aux tests []
  simpa [dimensionBuckets, sumTotals] using this

/-- C4 counterexample: an execution report whose `summary.total_tests`
says 5 while `execution_results` holds a single record.  The by_priority
totals sum to 1, the overview total is the copied 5 — they differ, so the
claimed equality fails for this input. -/
theorem c4_counterexample :
    ((((calculate_statistics
        { summary_total_tests := 5, summary_passed := 0, summary_failed := 0,
          summary_pass_rate_percentage := 0, summary_total_execution_time_seconds := 0,
          execution_results := .flat
            [{ test_id := some "T1", test_name := none, module := some "M",
               category := some "C", priority := some "high",
               status := some "PASSED", execution_time_seconds := some 1 }] }).by_priority.map
        (fun b => b.total)).sum : ℕ) : ℚ)
      ≠ (calculate_statistics
        { summary_total_tests := 5, summary_passed := 0, summary_failed := 0,
          summary_pass_rate_percentage := 0, summary_total_execution_time_seconds := 0,
          execution_results := .flat
            [{ test_id := some "T1", test_name := none, module := some "M",
               category := some "C", priority := some "high",
               status := some "PASSED", execution_time_seconds := some 1 }] }).overview_total_tests := by
  have h : ((calculate_statistics
      { summary_total_tests := 5, summary_passed := 0, summary_failed := 0,
        summary_pass_rate_percentage := 0, summary_total_execution_time_seconds := 0,
        execution_results := .flat
          [{ test_id := some "T1", test_name := none, module := some "M",
             category := some "C", priority := some "high",
             status := some "PASSED", execution_time_seconds := some 1 }] }).by_priority.map
      (fun b => b.total)).sum = 1 := by
    simp [calculate_statistics, dimensionBuckets, bumpBucket, all_tests, priorityKey,
      finishBucket]
  rw [h]
  show ((1 : ℕ) : ℚ) ≠ (5 : ℚ)
  norm_num

/-- C4 (amended): for every input execution report, the sum of the `total`
counters across the by_priority buckets equals the *number of collected
execution result records*; it equals the overview's total test count
exactly when the report's own `summary.total_tests` field agrees with that
record count (the overview total is copied from the summary, not
derived). -/
theorem c4_priority_totals (r : ExecutionReport) :
    ((calculate_statistics r).by_priority.map (fun b => b.total)).sum
        = (all_tests r.execution_results).length ∧
    (r.summary_total_tests = ((all_tests r.execution_results).length : ℚ) →
      ((((calculate_statistics r).by_priority.map (fun b => b.total)).sum : ℕ) : ℚ)
        = (calculate_statistics r).overview_total_tests) := by
  have hsum : ((calculate_statistics r).by_priority.map (fun b => b.total)).sum
      = (all_tests r.execution_results).length := by
    have hmap : ((dimensionBuckets priorityKey (all_tests r.execution_results)).map
        finishBucket).map (fun b => b.total)
        = (dimensionBuckets priorityKey (all_tests r.execution_results)).map
            (fun b => b.total) := by
      rw [List.map_map]; rfl
    calc ((calculate_statistics r).by_priority.map (fun b => b.total)).sum
        = sumTotals (dimensionBuckets priorityKey (all_tests r.execution_results)) := by
          simp only [calculate_statistics]
          rw [hmap]
          rfl
      _ = (all_tests r.execution_results).length :=
          sumTotals_dimensionBuckets _ _
  refine ⟨hsum, fun hagree => ?_⟩
  rw [hsum, ← hagree]
  rfl

/-- C4 witness: the amended statement instantiated at a consistent report
(summary total 1, one record), where both equalities hold. -/
theorem c4_witness :
    ((((calculate_statistics
        { summary_total_tests := 1, summary_passed := 1, summary_failed := 0,
          summary_pass_rate_percentage := 100, summary_total_execution_time_seconds := 1,
          execution_results := .flat
            [{ test_id := some "T1", test_name := none, module := some "M",
               category := some "C", priority := some "high",
               status := some "PASSED", execution_time_seconds := some 1 }] }).by_priority.map
        (fun b => b.total)).sum : ℕ) : ℚ)
      = (calculate_statistics
        { summary_total_tests := 1, summary_passed := 1, summary_failed := 0,
          summary_pass_rate_percentage := 100, summary_total_execution_time_seconds := 1,
          execution_results := .flat
            [{ test_id := some "T1", test_name := none, module := some "M",
               category := some "C", priority := some "high",
               status := some "PASSED", execution_time_seconds := some 1 }] }).overview_total_tests :=
  (c4_priority_totals _).2 (by norm_num [all_tests])

/-! ## Advisory insights (`result_analyzer.py`, `_generate_ai_insights` /
`_generate_fallback_insights`)

The collaborator call is modelled by an `Option String`: `none` stands for
`crew.kickoff()` raising (collaborator unavailable), `some reply` for the
free-text reply.  The code strips an optional code fence, runs
`json.loads`, and falls back to the rule-based generator only when that
parse raises — a reply that parses but is not a conformant advisory object
is returned as-is.  Numeric f-string fragments inside recommendation
strings are rendered as exact rationals; no statement below inspects
them. -/

/-- Exact-rational rendering (stands in for Python float formatting inside
recommendation strings; never inspected by a theorem). -/
def qStr (q : ℚ) : String :=
  (if q < 0 then "-" else "") ++ natStr q.num.natAbs ++
    (if q.den = 1 then "" else "/" ++ natStr q.den)

/-- The advisory object produced by the rule-based fallback. -/
structure Insights where
  summary : String
  critical_issue : String
  recommendations : List String
deriving DecidableEq

/-- The fixed generic recommendation appended when fewer than three
specific recommendations were generated. -/
def continue_monitoring_rec : String :=
  "Continue monitoring test stability and address intermittent failures"

/-- Python truthiness of an optional string (`if worst_module:`). -/
def optStrTruthy : Option String → Bool
  | none => false
  | some s => s ≠ ""

/-- The worst-module loop: the last bucket (in iteration order) that
strictly improves the rate while having more than one failure. -/
def worstModuleFold (l : List DimBucket) : Option String × ℚ :=
  l.foldl
    (fun acc b =>
      if b.failure_rate > acc.2 ∧ b.failed > 1 then (some b.key, b.failure_rate) else acc)
    (none, 0)

/-- The data-driven recommendations of `_generate_fallback_insights`, in
the order the code appends them: worst module over 30%, slowest test over
5 s, AI-generated failure rate over 20%, failing Security category over
25%. -/
def specific_recommendations (stats : CalcStats) : List String :=
  let w := worstModuleFold stats.by_module
  let r1 : List String :=
    if optStrTruthy w.1 ∧ w.2 > 30 then
      ["Prioritize fixing " ++ w.1.getD "" ++
        " module - it has the highest failure rate at " ++ qStr w.2 ++ "%"]
    else []
  let r2 : List String :=
    match stats.slowest_tests with
    | s :: _ =>
      if s.time > 5 then
        ["Optimize test " ++ s.test_id ++ " which takes " ++ qStr s.time ++ "s to execute"]
      else []
    | [] => []
  let r3 : List String :=
    if stats.ai_dist.total > 0 ∧
        ((stats.ai_dist.failed : ℚ) / (stats.ai_dist.total : ℚ) * 100) > 20 then
      ["Review AI-generated tests - " ++
        qStr ((stats.ai_dist.failed : ℚ) / (stats.ai_dist.total : ℚ) * 100) ++
        "% failure rate suggests they may need refinement"]
    else []
  let r4 : List String :=
    if stats.by_category.any (fun b => b.key = "Security" ∧ b.failure_rate > 25) then
      ["Conduct security review - multiple security tests are failing"]
    else []
  r1 ++ r2 ++ r3 ++ r4

/-- `ResultAnalyzerAgent._generate_fallback_insights`: rule-based summary,
critical issue, and recommendations, with the generic recommendation
appended whenever fewer than three specific ones were produced, truncated
to five. -/
def generate_fallback_insights (stats : CalcStats) : Insights :=
  let w := worstModuleFold stats.by_module
  let summary :=
    "Test execution completed with " ++ qStr stats.overview_pass_rate ++
      "% pass rate across " ++ qStr stats.overview_total_tests ++ " tests. " ++
      qStr stats.overview_failed ++ " tests failed, requiring immediate attention. "
  let critical :=
    if optStrTruthy w.1 then w.1.getD "" ++ " module showing " ++ qStr w.2 ++ "% failure rate"
    else "No significant failure patterns detected"
  let recs := specific_recommendations stats
  let recs := if recs.length < 3 then recs ++ [continue_monitoring_rec] else recs
  { summary := summary, critical_issue := critical, recommendations := recs.take 5 }

/-- Serialize the fallback insights the way `analyze` consumes them. -/
def insightsToJson (i : Insights) : Json :=
  .obj [("summary", .str i.summary), ("critical_issue", .str i.critical_issue),
        ("recommendations", .arr (i.recommendations.map Json.str))]

/-- The code-fence stripping of `_generate_ai_insights` (split on the
fence marker, keep the fenced part). -/
def fence_body (reply : String) : String :=
  if pyContains reply "```json" then
    match pySplit reply "```json" with
    | _ :: x :: _ =>
      (match pySplit x "```" with
       | y :: _ => y
       | [] => x)
    | _ => reply
  else if pyContains reply "```" then
    match pySplit reply "```" with
    | _ :: x :: _ =>
      (match pySplit x "```" with
       | y :: _ => y
       | [] => x)
    | _ => reply
  else reply

/-- `ResultAnalyzerAgent._generate_ai_insights`: `none` models the
collaborator raising; otherwise the reply is fence-stripped and passed to
`json.loads`; only a parse failure triggers the rule-based fallback — a
successfully parsed value is returned unvalidated. -/
def generate_ai_insights (stats : CalcStats) (collabReply : Option String) : Json :=
  match collabReply with
  | none => insightsToJson (generate_fallback_insights stats)
  | some reply =>
    match json_loads (pyStrip (fence_body reply)) with
    | some j => j
    | none => insightsToJson (generate_fallback_insights stats)

/-- `analyze`'s `ai_insights.get("recommendations", [])`. -/
def recommendationsOf (j : Json) : Json := (j.get? "recommendations").getD (.arr [])

/-- A `CalcStats` value with no failures and no records (used as a neutral
concrete input). -/
def emptyStats : CalcStats :=
  { overview_total_tests := 0, overview_passed := 0, overview_failed := 0,
    overview_pass_rate := 0, overview_execution_duration := 0,
    by_module := [], by_category := [], by_priority := [],
    slowest_tests := [], fastest_tests := [],
    average_execution_time := 0, total_execution_time := 0,
    baseline_dist := ⟨0, 0, 0⟩, ai_dist := ⟨0, 0, 0⟩ }

/-- A nonempty take of a nonempty list. -/
theorem take_five_ne_nil (l : List String) (h : l ≠ []) : l.take 5 ≠ [] := by
  cases l with
  | nil => exact absurd rfl h
  | cons a t => simp [List.take]

/-- C2 counterexample: the reply `{"summary": "ok"}` is valid JSON but not
a schema-conformant advisory object (it has no recommendations).  The code
accepts it without falling back, and the resulting recommendations value
is the empty list — refuting the claim that any non-conformant reply
triggers the fallback and yields a non-empty recommendation list. -/
theorem c2_counterexample :
    generate_ai_insights emptyStats (some "\x7b\"summary\": \"ok\"\x7d")
        = Json.obj [("summary", Json.str "ok")] ∧
    recommendationsOf (generate_ai_insights emptyStats (some "\x7b\"summary\": \"ok\"\x7d"))
        = Json.arr [] ∧
    (generate_fallback_insights emptyStats).recommendations ≠ [] := by
  refine ⟨rfl, rfl, by decide⟩

/-- C2 (amended): whenever the generative collaborator is unavailable or
its reply fails to parse as JSON (after code-fence stripping), the
analysis falls back to the rule-based generator, whose recommendations
list is always non-empty; when no specific threshold condition triggers,
it is exactly the generic continue-monitoring recommendation.  (A reply
that parses as JSON but is not schema-conformant is accepted as-is and can
carry an empty recommendation list.) -/
theorem c2_fallback_guarantee (stats : CalcStats) (reply : Option String)
    (hfail : reply = none ∨
      ∃ s, reply = some s ∧ json_loads (pyStrip (fence_body s)) = none) :
    generate_ai_insights stats reply = insightsToJson (generate_fallback_insights stats) ∧
    (generate_fallback_insights stats).recommendations ≠ [] ∧
    (specific_recommendations stats = [] →
      (generate_fallback_insights stats).recommendations = [continue_monitoring_rec]) := by
  refine ⟨?_, ?_, ?_⟩
  · rcases hfail with h | ⟨s, hs, hparse⟩
    · rw [h]; rfl
    · rw [hs]; simp [generate_ai_insights, hparse]
  · unfold generate_fallback_insights
    simp only
    by_cases hlen : (specific_recommendations stats).length < 3
    · rw [if_pos hlen]
      apply take_five_ne_nil
      simp
    · rw [if_neg hlen]
      apply take_five_ne_nil
      intro hnil
      rw [hnil] at hlen
      exact hlen (by norm_num)
  · intro hempty
    unfold generate_fallback_insights
    simp only [hempty]
    rfl

/-- C2 witness: the amended statement at the neutral statistics record
with the collaborator unavailable — the fallback fires, and its
recommendation list is exactly the generic advisory. -/
theorem c2_witness :
    generate_ai_insights emptyStats none
        = insightsToJson (generate_fallback_insights emptyStats) ∧
    (generate_fallback_insights emptyStats).recommendations ≠ [] ∧
    (generate_fallback_insights emptyStats).recommendations = [continue_monitoring_rec] := by
  have h := c2_fallback_guarantee emptyStats none (Or.inl rfl)
  exact ⟨h.1, h.2.1, h.2.2 (by decide)⟩

/-! ## JUnit report normalizer (`test_executor/run_tests.py`)

`parse_junit_to_results` walks every `<testcase>` descendant of the parsed
XML root and emits one canonical record per case.  The element tree is
modelled inductively; `find` is first-matching-direct-child as in
`ElementTree`, and `findall(".//testcase")` is the document-order
descendant traversal. -/

/-- A parsed XML element: tag, attributes, optional text, children. -/
inductive XmlElem where
  | node (tag : String) (attrs : List (String × String)) (textContent : Option String)
      (children : List XmlElem)

/-- Element tag. -/
def XmlElem.tag : XmlElem → String
  | .node t _ _ _ => t

/-- Element attributes. -/
def XmlElem.attrs : XmlElem → List (String × String)
  | .node _ a _ _ => a

/-- Element text (`elem.text`). -/
def XmlElem.textContent : XmlElem → Option String
  | .node _ _ t _ => t

/-- Direct children. -/
def XmlElem.children : XmlElem → List XmlElem
  | .node _ _ _ c => c

/-- `elem.get(k)`. -/
def XmlElem.getAttr (e : XmlElem) (k : String) : Option String :=
  (e.attrs.find? (fun kv => kv.1 = k)).map (·.2)

/-- `elem.find(t)`: first direct child with the given tag. -/
def XmlElem.findChild (e : XmlElem) (t : String) : Option XmlElem :=
  e.children.find? (fun c => c.tag = t)

/-- All descendants in document order, fuel-bounded on depth (any real
document's depth is far below the bound used). -/
def allDescendantsFuel : Nat → XmlElem → List XmlElem
  | 0, _ => []
  | fuel + 1, e => e.children.flatMap (fun c => c :: allDescendantsFuel fuel c)

/-- Depth bound for the descendant traversal. -/
def xmlDepthBound : Nat := 1000000

/-- `root.findall(".//testcase")`. -/
def findTestcases (root : XmlElem) : List XmlElem :=
  (allDescendantsFuel xmlDepthBound root).filter (fun e => e.tag = "testcase")

/-- Python `float(s)`: strip, optional sign, `digits`, `digits.digits`,
`digits.` or `.digits` (exponent and inf/nan forms are not modelled; JUnit
durations never use them). -/
def pyFloat (s : String) : Option ℚ :=
  let cs := pyStripL s.toList
  let signRest : Bool × List Char :=
    match cs with
    | '-' :: r => (true, r)
    | '+' :: r => (false, r)
    | _ => (false, cs)
  let neg := signRest.1
  let cs1 := signRest.2
  let intDigits := cs1.takeWhile Char.isDigit
  let rest := cs1.dropWhile Char.isDigit
  match rest with
  | [] =>
    if intDigits.isEmpty then none
    else some ((if neg then -1 else 1) * (digitsToNat intDigits : ℚ))
  | '.' :: r =>
    let fracDigits := r.takeWhile Char.isDigit
    let r2 := r.dropWhile Char.isDigit
    if r2.isEmpty ∧ ¬(intDigits.isEmpty ∧ fracDigits.isEmpty) then
      some ((if neg then -1 else 1) *
        ((digitsToNat intDigits : ℚ) + (digitsToNat fracDigits : ℚ) / (10 : ℚ) ^ fracDigits.length))
    else none
  | _ => none

/-- Python `round(q, 4)` (same tie caveat as `round2`). -/
def round4 (q : ℚ) : ℚ := ((round (q * 10000) : ℤ) : ℚ) / 10000

/-- Failure/error detail text: stripped `message` attribute, then the
stripped body text appended after a newline when the body is non-empty. -/
def subElemDetail (el : XmlElem) : String :=
  let d := pyStrip ((el.getAttr "message").getD "")
  match el.textContent with
  | some t => if t ≠ "" then pyStrip (d ++ "\n" ++ pyStrip t) else d
  | none => d

/-- The per-case body of `parse_junit_to_results`. -/
def junit_case_to_result (tc : XmlElem) : ExecResult :=
  let nameAttr := (tc.getAttr "name").getD ""
  let classname := (tc.getAttr "classname").getD ""
  let time_str := (tc.getAttr "time").getD "0"
  let exec_time : ℚ := (pyFloat time_str).getD 0
  let statusDetails : String × String :=
    match tc.findChild "failure" with
    | some f => ("FAIL", subElemDetail f)
    | none =>
      match tc.findChild "error" with
      | some er => ("FAIL", subElemDetail er)
      | none =>
        match tc.findChild "skipped" with
        | some _ => ("SKIPPED", "")
        | none => ("PASS", "")
  { test_id := if classname ≠ "" then classname ++ "::" ++ nameAttr else nameAttr
    name := nameAttr
    module := if classname ≠ "" then classname else "unknown"
    status := statusDetails.1
    execution_time := round4 exec_time
    failure_details := if statusDetails.1 = "FAIL" then statusDetails.2 else "" }

/-- `parse_junit_to_results`: one canonical record per `<testcase>`. -/
def parse_junit_to_results (root : XmlElem) : List ExecResult :=
  (findTestcases root).map junit_case_to_result

/-- The default duration string `"0"` parses to 0. -/
theorem pyFloat_zero : pyFloat "0" = some 0 := by
  have h : pyFloat "0" = some (1 * ((digitsToNat ['0'] : ℕ) : ℚ)) := rfl
  have h2 : digitsToNat ['0'] = 0 := by decide
  rw [h, h2]
  norm_num

/-- C6: for every JUnit report with N testcase elements the normalizer
returns exactly N records; per case the status is FAIL exactly when a
failure or error sub-element is present — with the winning sub-element's
message-and-body concatenation as the failure reason, the failure child
taking precedence over the error child — SKIPPED exactly when only a
skipped sub-element is present, PASS otherwise; the identifier is
`classname::name` when a non-empty classname attribute exists, else
`name`; and a missing or unparseable duration yields 0. -/
theorem c6_junit_normalizer (root : XmlElem) :
    (parse_junit_to_results root).length = (findTestcases root).length ∧
    ∀ tc ∈ findTestcases root,
      ((junit_case_to_result tc).status = "FAIL" ↔
        ((tc.findChild "failure").isSome ∨ (tc.findChild "error").isSome)) ∧
      ((junit_case_to_result tc).status = "SKIPPED" ↔
        (tc.findChild "failure" = none ∧ tc.findChild "error" = none ∧
          (tc.findChild "skipped").isSome)) ∧
      ((junit_case_to_result tc).status = "PASS" ↔
        (tc.findChild "failure" = none ∧ tc.findChild "error" = none ∧
          tc.findChild "skipped" = none)) ∧
      (∀ f, tc.findChild "failure" = some f →
        (junit_case_to_result tc).failure_details = subElemDetail f) ∧
      (∀ er, tc.findChild "failure" = none → tc.findChild "error" = some er →
        (junit_case_to_result tc).failure_details = subElemDetail er) ∧
      ((junit_case_to_result tc).test_id =
        if (tc.getAttr "classname").getD "" ≠ "" then
          (tc.getAttr "classname").getD "" ++ "::" ++ (tc.getAttr "name").getD ""
        else (tc.getAttr "name").getD "") ∧
      ((tc.getAttr "time" = none ∨ pyFloat ((tc.getAttr "time").getD "0") = none) →
        (junit_case_to_result tc).execution_time = 0) := by
  constructor
  · simp [parse_junit_to_results]
  · intro tc _
    refine ⟨?_, ?_, ?_, ?_, ?_, ?_, ?_⟩
    · rcases hf : tc.findChild "failure" with _ | f
      · rcases he : tc.findChild "error" with _ | er
        · rcases hs : tc.findChild "skipped" with _ | sk <;>
            simp [junit_case_to_result, hf, he, hs]
        · simp [junit_case_to_result, hf, he]
      · simp [junit_case_to_result, hf]
    · rcases hf : tc.findChild "failure" with _ | f
      · rcases he : tc.findChild "error" with _ | er
        · rcases hs : tc.findChild "skipped" with _ | sk <;>
            simp [junit_case_to_result, hf, he, hs]
        · simp [junit_case_to_result, hf, he]
      · simp [junit_case_to_result, hf]
    · rcases hf : tc.findChild "failure" with _ | f
      · rcases he : tc.findChild "error" with _ | er
        · rcases hs : tc.findChild "skipped" with _ | sk <;>
            simp [junit_case_to_result, hf, he, hs]
        · simp [junit_case_to_result, hf, he]
      · simp [junit_case_to_result, hf]
    · intro f hf
      simp [junit_case_to_result, hf]
    · intro er hf he
      simp [junit_case_to_result, hf, he]
    · simp [junit_case_to_result]
    · intro htime
      rcases htime with h | h
      · have hgd : (tc.getAttr "time").getD "0" = "0" := by rw [h]; rfl
        have h0 : pyFloat ((tc.getAttr "time").getD "0") = some 0 := by
          rw [hgd]; exact pyFloat_zero
        simp [junit_case_to_result, h0]
        norm_num [round4]
      · simp [junit_case_to_result, h]
        norm_num [round4]

/-- A sample report: one failing case (failure child with message and
body), one passing case with a classname, one erroring case. -/
def sampleFailCase : XmlElem :=
  .node "testcase" [("name", "test_a"), ("time", "0.5")] none
    [.node "failure" [("message", "boom")] (some "trace") []]

/-- The passing sample case. -/
def samplePassCase : XmlElem :=
  .node "testcase" [("name", "test_b"), ("classname", "pkg.Mod"), ("time", "bogus")] none []

/-- The error sub-element of the erroring sample case. -/
def sampleErrorChild : XmlElem :=
  .node "error" [("message", "crashed")] (some "stack") []

/-- The erroring sample case (error child, no failure child). -/
def sampleErrorCase : XmlElem :=
  .node "testcase" [("name", "test_c"), ("time", "1.0")] none [sampleErrorChild]

/-- The sample report root. -/
def sampleJunitRoot : XmlElem :=
  .node "testsuite" [] none [sampleFailCase, samplePassCase, sampleErrorCase]

/-- C6 witness: the normalizer facts instantiated on the three-case sample
report — three records, the failing case classified FAIL with its detail
text, the erroring case carrying its error's message-and-body detail, the
passing case classified PASS, and the unparseable duration dropping
to 0. -/
theorem c6_witness :
    (parse_junit_to_results sampleJunitRoot).length = (findTestcases sampleJunitRoot).length ∧
    ((junit_case_to_result sampleFailCase).status = "FAIL" ↔
      ((sampleFailCase.findChild "failure").isSome ∨
        (sampleFailCase.findChild "error").isSome)) ∧
    ((junit_case_to_result samplePassCase).status = "PASS" ↔
      (samplePassCase.findChild "failure" = none ∧ samplePassCase.findChild "error" = none ∧
        samplePassCase.findChild "skipped" = none)) ∧
    (junit_case_to_result sampleErrorCase).failure_details = subElemDetail sampleErrorChild ∧
    ((samplePassCase.getAttr "time" = none ∨
        pyFloat ((samplePassCase.getAttr "time").getD "0") = none) →
      (junit_case_to_result samplePassCase).execution_time = 0) := by
  have h := c6_junit_normalizer sampleJunitRoot
  have hlist : findTestcases sampleJunitRoot
      = [sampleFailCase, samplePassCase, sampleErrorCase] := rfl
  have hmem1 : sampleFailCase ∈ findTestcases sampleJunitRoot := by
    rw [hlist]; exact List.mem_cons_self _ _
  have hmem2 : samplePassCase ∈ findTestcases sampleJunitRoot := by
    rw [hlist]; exact List.mem_cons_of_mem _ (List.mem_cons_self _ _)
  have hmem3 : sampleErrorCase ∈ findTestcases sampleJunitRoot := by
    rw [hlist]
    exact List.mem_cons_of_mem _ (List.mem_cons_of_mem _ (List.mem_cons_self _ _))
  exact ⟨h.1, (h.2 sampleFailCase hmem1).1, (h.2 samplePassCase hmem2).2.2.1,
    (h.2 sampleErrorCase hmem3).2.2.2.2.1 sampleErrorChild rfl rfl,
    (h.2 samplePassCase hmem2).2.2.2.2.2.2⟩

/-! ## Pipeline controller (`orchestrator.py`, `run_pipeline`)

The four stage calls are modelled by outcome values: a stage either raises
(the exception propagates out of `run_pipeline`) or returns a dict.  The
generator additionally distinguishes whether it reached its normal exit
(which writes the generated-tests file) or returned early with an error
dict (no file written); the phase-3/4 guards test exactly that file's
existence and the executor report's `error` key and truthiness, as the
source does.  File writes, prints and the fire-and-forget dashboard launch
(wrapped in `try/except`) do not influence control flow and are omitted. -/

/-- The four pipeline stages. -/
inductive Stage where
  | gapAnalysis
  | generation
  | execution
  | analysis
deriving DecidableEq

/-- Outcome of awaiting a stage coroutine. -/
inductive StageOutcome where
  | raised (msg : String)
  | returned (v : Json)

/-- Outcome of `generator.execute`: raising, returning an error dict
before the output file is written, or completing (file written). -/
inductive GenOutcome where
  | raised (msg : String)
  | earlyError (v : Json)
  | completed (v : Json)

/-- The stage behaviours a pipeline run observes. -/
structure StageBehavior where
  analyzerRun : StageOutcome
  generatorRun : Json → GenOutcome
  executorRun : StageOutcome
  resultAnalyzerRun : StageOutcome

/-- What `run_pipeline` produces: an escaped exception after some prefix
of stages ran, or the final result dict (gap analysis, generated tests,
optional execution report, optional analysis summary). -/
inductive PipelineResult where
  | raisedAt (stage : Stage) (invoked : List Stage)
  | finished (invoked : List Stage) (gap_analysis : Json) (generated_tests : Json)
      (execution_report : Option Json) (analysis_summary : Option Json)

/-- The stages `run_pipeline` actually invoked. -/
def PipelineResult.invoked : PipelineResult → List Stage
  | .raisedAt _ l => l
  | .finished l _ _ _ _ => l

/-- Python `"error" in execution_report`. -/
def hasErrorKey (j : Json) : Bool := j.hasKey "error"

/-- `TestSuiteOrchestrator.run_pipeline(config)` control flow.  The
analyzer is awaited first; its returned value — error dict or not — is
passed straight to the generator (phase 2 has no error guard).  Phase 3
runs only if the generated-tests file exists, phase 4 only if in addition
the execution report is truthy and carries no `error` key. -/
def run_pipeline (b : StageBehavior) : PipelineResult :=
  match b.analyzerRun with
  | .raised _ => .raisedAt .gapAnalysis [.gapAnalysis]
  | .returned gap =>
    match b.generatorRun gap with
    | .raised _ => .raisedAt .generation [.gapAnalysis, .generation]
    | .earlyError gen =>
      .finished [.gapAnalysis, .generation] gap gen none none
    | .completed gen =>
      match b.executorRun with
      | .raised _ => .raisedAt .execution [.gapAnalysis, .generation, .execution]
      | .returned report =>
        if report.truthy ∧ ¬ hasErrorKey report then
          match b.resultAnalyzerRun with
          | .raised _ =>
            .raisedAt .analysis [.gapAnalysis, .generation, .execution, .analysis]
          | .returned summary =>
            .finished [.gapAnalysis, .generation, .execution, .analysis]
              gap gen (some report) (some summary)
        else
          .finished [.gapAnalysis, .generation, .execution] gap gen (some report) none

/-- An error dict as the analyzer can return it. -/
def gapErrorDict : Json := .obj [("error", .str "Invalid gap analysis format")]

/-- The generator behaviour the source exhibits on an error gap input:
`_parse_gap_analysis` returns the error dict and `execute` returns it
before writing any file (`test_generator.py` lines 286–288). -/
def generatorOnInput (g : Json) : GenOutcome :=
  if hasErrorKey g then .earlyError g else .completed g

/-- C8 counterexample: when gap analysis *returns an error result* (rather
than raising), the controller still invokes the generator — phase 2 runs
unconditionally on the returned value — refuting the claim that a
gap-analysis failure prevents generation from running. -/
theorem c8_counterexample :
    Stage.generation ∈ (run_pipeline
      { analyzerRun := .returned gapErrorDict,
        generatorRun := generatorOnInput,
        executorRun := .returned (.obj []),
        resultAnalyzerRun := .returned (.obj []) }).invoked ∧
    run_pipeline
      { analyzerRun := .returned gapErrorDict,
        generatorRun := generatorOnInput,
        executorRun := .returned (.obj []),
        resultAnalyzerRun := .returned (.obj []) }
      = .finished [.gapAnalysis, .generation] gapErrorDict gapErrorDict none none := by
  constructor
  · show Stage.generation ∈ [Stage.gapAnalysis, Stage.generation]
    exact List.mem_cons_of_mem _ (List.mem_cons_self _ _)
  · rfl

/-- C8 (amended): a stage that *raises* halts the pipeline with no
downstream stage invoked; a generation failure that leaves no tests file
(raise or early error return) prevents execution and analysis, with the
partial results (gap analysis, generator output) still recorded; an
execution report that is falsy or carries an error key prevents analysis,
with the report still recorded.  A gap-analysis *error-result return*,
however, does not prevent generation (see the counterexample). -/
theorem c8_stage_failure_halts (b : StageBehavior) :
    (∀ m, b.analyzerRun = .raised m →
      run_pipeline b = .raisedAt .gapAnalysis [.gapAnalysis]) ∧
    (∀ gap m, b.analyzerRun = .returned gap → b.generatorRun gap = .raised m →
      run_pipeline b = .raisedAt .generation [.gapAnalysis, .generation]) ∧
    (∀ gap gen, b.analyzerRun = .returned gap → b.generatorRun gap = .earlyError gen →
      run_pipeline b = .finished [.gapAnalysis, .generation] gap gen none none) ∧
    (∀ gap gen report, b.analyzerRun = .returned gap →
      b.generatorRun gap = .completed gen → b.executorRun = .returned report →
      ¬ (report.truthy ∧ ¬ hasErrorKey report) →
      run_pipeline b
        = .finished [.gapAnalysis, .generation, .execution] gap gen (some report) none) := by
  refine ⟨?_, ?_, ?_, ?_⟩
  · intro m hm
    simp [run_pipeline, hm]
  · intro gap m h1 h2
    simp [run_pipeline, h1, h2]
  · intro gap gen h1 h2
    simp [run_pipeline, h1, h2]
  · intro gap gen report h1 h2 h3 h4
    simp [run_pipeline, h1, h2, h3, if_neg h4]
    intro ht hf
    exact absurd ⟨ht, by simp [hf]⟩ h4

/-- C8 witness: the halting facts at concrete behaviours — a raising
analyzer halts after phase 1, and an early-error generator stops the
pipeline after phase 2 while the gap artifact and the error dict are
still recorded. -/
theorem c8_witness :
    run_pipeline
      { analyzerRun := .raised "boom",
        generatorRun := fun g => .completed g,
        executorRun := .returned (.obj []),
        resultAnalyzerRun := .returned (.obj []) }
      = .raisedAt .gapAnalysis [.gapAnalysis] ∧
    run_pipeline
      { analyzerRun := .returned (.obj [("gap_analysis_report", .obj [])]),
        generatorRun := fun _ => .earlyError (.obj [("error", .str "no model")]),
        executorRun := .returned (.obj []),
        resultAnalyzerRun := .returned (.obj []) }
      = .finished [.gapAnalysis, .generation]
          (.obj [("gap_analysis_report", .obj [])])
          (.obj [("error", .str "no model")]) none none := by
  constructor
  · exact (c8_stage_failure_halts _).1 "boom" rfl
  · exact (c8_stage_failure_halts _).2.2.1 _ _ rfl rfl

/-! ## Structured-data extraction engine (`test_generator.py`)

`TestGeneratorAgent.execute`'s parsing pipeline (lines 304–413): content
selection (fenced block, first block with braces, brace-balanced scan,
whole text), artifact cleanup, prefix removal, `json.loads`, syntax
repair, manual field harvesting (`_extract_structured_data`), intelligent
fallback (`_create_fallback_tests`), then structure normalization.  The
regex `findall` calls are modelled by explicit leftmost non-overlapping
scanners. -/

/-- The `{` character (written via its code point). -/
def lbrace : Char := Char.ofNat 123

/-- The `}` character (written via its code point). -/
def rbrace : Char := Char.ofNat 125

/-- The regex literal `"FIELD":` that precedes a captured value. -/
def fieldPat (field : String) : List Char := '"' :: field.toList ++ ['"', ':']

/-- Match `"FIELD":\s*"([^"]+)"` at the head of `cs`: on success return
the capture and the remainder after the closing quote. -/
def matchFieldAt (fieldP : List Char) (cs : List Char) : Option (List Char × List Char) :=
  match dropPrefixL fieldP cs with
  | none => none
  | some r1 =>
    match r1.dropWhile pyIsSpace with
    | '"' :: r3 =>
      let cap := r3.takeWhile (fun c => c ≠ '"')
      match r3.dropWhile (fun c => c ≠ '"') with
      | '"' :: r5 => if cap.isEmpty then none else some (cap, r5)
      | _ => none
    | _ => none

/-- Leftmost non-overlapping scan for the field pattern (`re.findall`). -/
def findallFieldAux (fieldP : List Char) : Nat → List Char → List (List Char)
  | 0, _ => []
  | _ + 1, [] => []
  | fuel + 1, c :: cs =>
    match matchFieldAt fieldP (c :: cs) with
    | some (cap, r) => cap :: findallFieldAux fieldP fuel r
    | none => findallFieldAux fieldP fuel cs

/-- `re.findall(r'"FIELD":\s*"([^"]+)"', content)`. -/
def findallField (field : String) (content : List Char) : List String :=
  (findallFieldAux (fieldPat field) (content.length + 1) content).map String.mk

/-- Match `TC-[A-Z]+-\d+` at the head of `cs` (whole match returned). -/
def matchTcAt (cs : List Char) : Option (List Char × List Char) :=
  match dropPrefixL "TC-".toList cs with
  | none => none
  | some r1 =>
    let letters := r1.takeWhile (fun c => 'A' ≤ c && c ≤ 'Z')
    if letters.isEmpty then none
    else
      match r1.dropWhile (fun c => 'A' ≤ c && c ≤ 'Z') with
      | '-' :: r3 =>
        let ds := r3.takeWhile Char.isDigit
        if ds.isEmpty then none
        else some ("TC-".toList ++ letters ++ '-' :: ds, r3.dropWhile Char.isDigit)
      | _ => none

/-- Leftmost non-overlapping scan for `TC-[A-Z]+-\d+`. -/
def findallTcAux : Nat → List Char → List (List Char)
  | 0, _ => []
  | _ + 1, [] => []
  | fuel + 1, c :: cs =>
    match matchTcAt (c :: cs) with
    | some (m, r) => m :: findallTcAux fuel r
    | none => findallTcAux fuel cs

/-- `re.findall(r'TC-[A-Z]+-\d+', content)`. -/
def findallTc (content : List Char) : List String :=
  (findallTcAux (content.length + 1) content).map String.mk

/-- A generated test-case record (the six fields the generator emits). -/
structure GenTest where
  test_id : String
  module : String
  scenario : String
  priority : String
  test_type : String
  category : String
deriving DecidableEq

/-- The JSON object for one generated test. -/
def genTestToJson (t : GenTest) : Json :=
  .obj [("test_id", .str t.test_id), ("module", .str t.module),
        ("scenario", .str t.scenario), ("priority", .str t.priority),
        ("test_type", .str t.test_type), ("category", .str t.category)]

/-- The test list built by `_extract_structured_data`: position `i` takes
the `i`-th harvested value of each field when available, a deterministic
default otherwise; the list length is
`min(30, max(len(test_ids), len(modules), len(scenarios), 10))`. -/
def harvested_tests (content : String) : List Json :=
  let cs := content.toList
  let test_ids := findallField "test_id" cs
  let modules := findallField "module" cs
  let scenarios := findallField "scenario" cs
  let priorities := findallField "priority" cs
  let max_tests :=
    min 30 (max (max test_ids.length modules.length) (max scenarios.length 10))
  (List.range max_tests).map (fun i =>
    genTestToJson
      { test_id := test_ids.getD i ("TC-AI-" ++ pad3 (i + 1))
        module := modules.getD i "Banking System"
        scenario := scenarios.getD i ("Banking test scenario " ++ natStr (i + 1))
        priority := priorities.getD i "medium"
        test_type := "functional"
        category := "extracted_tests" })

/-- `TestGeneratorAgent._extract_structured_data` (the model never raises,
so the `except` branch returning `{}` is unreachable; the `if tests:`
guard is kept). -/
def extract_structured_data (content : String) : Json :=
  let tests := harvested_tests content
  if tests.isEmpty then Json.obj []
  else
    .obj [("generated_tests", .arr tests),
          ("test_summary", .obj
            [("total_tests", .num (tests.length : ℚ)),
             ("extraction_method", .str "manual_pattern_matching")])]

/-- The five banking modules of the fallback generator. -/
def banking_modules : List String :=
  ["Authentication", "Payment Processing", "Account Management", "Security",
   "Transaction History"]

/-- The five test operations of the fallback generator. -/
def fallback_test_ops : List String :=
  ["Login validation", "Payment flow", "Account verification", "Security check",
   "Data retrieval"]

/-- The 30 synthetic banking tests: the source zips
`banking_modules * 6` with the operations list `* 6` and stops at 30, which
is indexing modulo 5 over `range 30`. -/
def bankingFallbackTests : List GenTest :=
  (List.range 30).map (fun i =>
    { test_id := "TC-AI-" ++ pad3 (i + 1)
      module := banking_modules.getD (i % 5) ""
      scenario := (fallback_test_ops.getD (i % 5) "") ++ " - scenario " ++ natStr (i + 1)
      priority := ["high", "medium", "low"].getD (i % 3) ""
      test_type := "functional"
      category := "ai_generated" })

/-- Python `zip(a, b, c)` (truncating to the shortest list). -/
def zip3 : List String → List String → List String → List (String × String × String)
  | a :: as, b :: bs, c :: cs => (a, b, c) :: zip3 as bs cs
  | _, _, _ => []

/-- `TestGeneratorAgent._create_fallback_tests`. -/
def create_fallback_tests (failed_content : String) : Json :=
  let cs := failed_content.toList
  let fromContent : List GenTest :=
    if failed_content ≠ "" then
      let test_ids := findallTc cs
      let modules := findallField "module" cs
      let test_scenarios := findallField "scenario" cs
      if ¬ test_ids.isEmpty ∨ ¬ modules.isEmpty ∨ ¬ test_scenarios.isEmpty then
        let ids :=
          if test_ids.isEmpty then (List.range 10).map (fun i => "TC-GEN-" ++ pad3 i)
          else test_ids.take 10
        let mods :=
          if modules.isEmpty then List.replicate 10 "Banking System" else modules.take 10
        let scens :=
          if test_scenarios.isEmpty then
            (List.range 10).map (fun i => "Test scenario " ++ natStr (i + 1))
          else test_scenarios.take 10
        (zip3 ids mods scens).map (fun trip =>
          { test_id := trip.1, module := trip.2.1, scenario := trip.2.2,
            priority := "medium", test_type := "functional",
            category := "generated_tests" })
      else []
    else []
  let scenarios := if fromContent.isEmpty then bankingFallbackTests else fromContent
  .obj [("generated_tests", .arr ((scenarios.take 30).map genTestToJson)),
        ("test_summary", .obj
          [("total_tests", .num (((scenarios.take 30).length : ℕ) : ℚ)),
           ("fallback_reason", .str "JSON parsing failed, used intelligent content analysis"),
           ("generated_from_content", .bool (failed_content ≠ ""))])]

/-- Strategy 1: fenced-block extraction — the part after a ```json marker
(up to the next fence), else the first ``` block containing braces. -/
def strategy1_content (result_text : String) : Option String :=
  if pyContains result_text "```json" then
    match pySplit result_text "```json" with
    | _ :: x :: _ =>
      some (pyStrip
        (match pySplit x "```" with
         | y :: _ => y
         | [] => x))
    | _ => some ""
  else if pyContains result_text "```" ∧ pyContains result_text "\x7b" then
    ((pySplit result_text "```").find?
      (fun b => pyContains b "\x7b" ∧ pyContains b "\x7d")).map pyStrip
  else none

/-- The depth-counting loop of strategy 2, over the text starting at the
first `{`: emit the inclusive slice once the depth returns to zero. -/
def scanBalanced : Nat → List Char → Nat → List Char → Option (List Char)
  | 0, _, _, _ => none
  | _ + 1, [], _, _ => none
  | fuel + 1, c :: cs, depth, acc =>
    if c = lbrace then scanBalanced fuel cs (depth + 1) (c :: acc)
    else if c = rbrace then
      if depth = 1 then some (c :: acc).reverse
      else scanBalanced fuel cs (depth - 1) (c :: acc)
    else scanBalanced fuel cs depth (c :: acc)

/-- Strategy 2: brace-balanced scan from the first `{`. -/
def braceScan (cs : List Char) : Option (List Char) :=
  let rest := cs.dropWhile (fun c => c ≠ lbrace)
  match rest with
  | [] => none
  | _ :: _ => scanBalanced (rest.length + 1) rest 0 []

/-- Python falsiness of the running `json_content` (None or empty). -/
def optFalsy : Option String → Bool
  | none => true
  | some s => s = ""

/-- The cleanup replaces of strategy "2.5" (fence markers, literal `\n`
sequences, escaped underscores). -/
def cleaned (s : String) : String :=
  pyReplace (pyReplace (pyReplace (pyReplace s "```json" "") "```" "") "\\n" "") "\\_" "_"

/-- The LLM prefixes stripped before parsing. -/
def llm_prefixes : List String :=
  ["Here is the", "The answer is", "Final Answer:", "Your final answer must be",
   "the great and"]

/-- Sequential prefix removal: the startswith test is on the stripped,
lowered text, but the slice drops from the unstripped text, then strips
— exactly as the source does. -/
def remove_llm_prefixes (s : String) : String :=
  llm_prefixes.foldl
    (fun acc p =>
      if isPrefixL (pyLowerL p.toList) (pyLowerL (pyStripL acc.toList)) then
        pyStrip (String.mk (acc.toList.drop p.toList.length))
      else acc)
    s

/-- The `json_content` string handed to the parsing attempts: content
selection, then cleanup, then prefix removal. -/
def json_content_of (raw : String) : String :=
  let result_text := pyStrip raw
  let jc1 := strategy1_content result_text
  let jc2 :=
    if optFalsy jc1 then
      match braceScan result_text.toList with
      | some cs => some (String.mk cs)
      | none => jc1
    else jc1
  let base := if optFalsy jc2 then result_text else jc2.getD result_text
  remove_llm_prefixes (cleaned base)

/-- One pass of `re.sub(r',\s*CLOSE', 'CLOSE', _)`. -/
def subCommaCloseAux (close : Char) : Nat → List Char → List Char
  | 0, cs => cs
  | _ + 1, [] => []
  | fuel + 1, c :: rest =>
    if c = ',' then
      match rest.dropWhile pyIsSpace with
      | d :: r3 =>
        if d = close then close :: subCommaCloseAux close fuel r3
        else c :: subCommaCloseAux close fuel rest
      | [] => c :: subCommaCloseAux close fuel rest
    else c :: subCommaCloseAux close fuel rest

/-- `re.sub(r',\s*CLOSE', 'CLOSE', s)` for a closing delimiter. -/
def subCommaClose (close : Char) (s : String) : String :=
  String.mk (subCommaCloseAux close (s.toList.length + 1) s.toList)

/-- `\w` (regex word character, ASCII). -/
def isWordChar (c : Char) : Bool := c.isAlphanum || c = '_'

/-- One pass of `re.sub(r'(\w+):', r'"\1":', _)`: a maximal word run
directly followed by a colon is quoted. -/
def quoteBareKeysAux : Nat → List Char → List Char
  | 0, cs => cs
  | _ + 1, [] => []
  | fuel + 1, c :: rest =>
    if isWordChar c then
      match (c :: rest).dropWhile isWordChar with
      | ':' :: r3 =>
        '"' :: ((c :: rest).takeWhile isWordChar ++ '"' :: ':' :: quoteBareKeysAux fuel r3)
      | r2 => (c :: rest).takeWhile isWordChar ++ quoteBareKeysAux fuel r2
    else c :: quoteBareKeysAux fuel rest

/-- `re.sub(r'(\w+):', r'"\1":', s)`. -/
def quoteBareKeys (s : String) : String :=
  String.mk (quoteBareKeysAux (s.toList.length + 1) s.toList)

/-- The repaired content of the second parsing attempt: strip trailing
commas before `}` and `]`, then quote bare keys. -/
def fixed_content_of (s : String) : String :=
  quoteBareKeys (subCommaClose ']' (subCommaClose rbrace s))

/-- Does a JSON value look like a test list (non-empty list whose first
element is a dict carrying `test_id`)? -/
def looksLikeTestList : Json → Bool
  | .arr (first :: _) =>
    (match first with
     | .obj kvs => kvs.any (fun kv => kv.1 = "test_id")
     | _ => false)
  | _ => false

/-- The structure-recovery loop: first value of the dict that looks like a
test list. -/
def findEmbeddedTestList (j : Json) : Option Json :=
  match j with
  | .obj kvs => (kvs.find? (fun kv => looksLikeTestList kv.2)).map (·.2)
  | _ => none

/-- The full extraction chain of `TestGeneratorAgent.execute` (metadata
stamping and the optional validation crew pass do not touch the
`generated_tests` entry and are omitted): parse, repair-and-parse,
harvest, truthiness fallback, dict normalization, embedded-list recovery,
final fallback. -/
def parsed_generated_tests (raw : String) : Json :=
  let jsonContent := json_content_of raw
  let gt0 : Json :=
    match json_loads jsonContent with
    | some j => j
    | none =>
      match json_loads (fixed_content_of jsonContent) with
      | some j => j
      | none => extract_structured_data jsonContent
  let gt1 := if gt0.truthy then gt0 else create_fallback_tests jsonContent
  let gt2 : Json :=
    match gt1 with
    | .obj _ => gt1
    | .arr l => .obj [("generated_tests", .arr l)]
    | _ => .obj [("generated_tests", .arr [])]
  if gt2.hasKey "generated_tests" then gt2
  else
    match findEmbeddedTestList gt2 with
    | some v => .obj [("generated_tests", v)]
    | none => create_fallback_tests jsonContent

/-- The record set the chain hands downstream. -/
def extraction_records (raw : String) : List Json :=
  match (parsed_generated_tests raw).get? "generated_tests" with
  | some (.arr l) => l
  | _ => []

/-- Harvesting always builds at least ten records. -/
theorem harvested_tests_length_ge (content : String) :
    10 ≤ (harvested_tests content).length := by
  unfold harvested_tests
  simp only [List.length_map, List.length_range]
  exact le_min (by norm_num) (le_trans (le_max_right _ _) (le_max_right _ _))

/-- `_extract_structured_data` always returns the filled dict. -/
theorem extract_structured_data_eq (content : String) :
    extract_structured_data content
      = Json.obj [("generated_tests", Json.arr (harvested_tests content)),
          ("test_summary", Json.obj
            [("total_tests", Json.num (((harvested_tests content).length : ℕ) : ℚ)),
             ("extraction_method", Json.str "manual_pattern_matching")])] := by
  have h := harvested_tests_length_ge content
  unfold extract_structured_data
  have hne : (harvested_tests content).isEmpty = false := by
    cases hl : harvested_tests content with
    | nil => rw [hl] at h; simp at h
    | cons a t => simp
  simp [hne]

/-- C1 counterexample: on the input text `5` — which is valid JSON — the
chain parses successfully, the truthy non-dict value is wrapped as a dict
with an *empty* `generated_tests` list, and the chain returns zero
records, refuting the never-empty guarantee. -/
theorem c1_counterexample :
    extraction_records "5" = [] ∧ (json_loads (json_content_of "5")).isSome = true :=
  ⟨rfl, rfl⟩

/-- C1 (amended): for every input text on which both the direct parse and
the repaired parse of the selected content fail — including the empty
string — the recovery chain returns at least one record (field harvesting
alone already yields ten); only a *successful* parse can produce an empty
record set, as the counterexample shows. -/
theorem c1_parse_failure_nonempty (raw : String)
    (h1 : json_loads (json_content_of raw) = none)
    (h2 : json_loads (fixed_content_of (json_content_of raw)) = none) :
    extraction_records raw ≠ [] := by
  have hlen := harvested_tests_length_ge (json_content_of raw)
  have heq := extract_structured_data_eq (json_content_of raw)
  have hrec : extraction_records raw = harvested_tests (json_content_of raw) := by
    unfold extraction_records parsed_generated_tests
    simp only [h1, h2, heq]
    simp [Json.truthy, Json.hasKey, Json.get?]
  rw [hrec]
  intro hnil
  rw [hnil] at hlen
  simp at hlen

/-- C1 witness: both parses fail on the empty input text and the chain
still returns a non-empty record set. -/
theorem c1_witness :
    json_loads (json_content_of "") = none ∧
    json_loads (fixed_content_of (json_content_of "")) = none ∧
    extraction_records "" ≠ [] :=
  ⟨rfl, rfl, c1_parse_failure_nonempty "" rfl rfl⟩

/-- A text with no object syntax and exactly three occurrences of each of
the three recognizable field patterns. -/
def c5_text : String :=
  "\"test_id\": \"TC-X-1\" \"module\": \"Auth\" \"scenario\": \"Login ok\" " ++
  "\"test_id\": \"TC-X-2\" \"module\": \"Pay\" \"scenario\": \"Pay ok\" " ++
  "\"test_id\": \"TC-X-3\" \"module\": \"Sec\" \"scenario\": \"Sec ok\""

set_option maxRecDepth 100000 in
/-- C5 counterexample: on a text with exactly three occurrences of each
recognizable field pattern, field harvesting yields *ten* records (three
harvested, seven padded), not the claimed three. -/
theorem c5_counterexample :
    (findallField "test_id" c5_text.toList).length = 3 ∧
    (findallField "module" c5_text.toList).length = 3 ∧
    (findallField "scenario" c5_text.toList).length = 3 ∧
    (harvested_tests c5_text).length = 10 ∧
    ¬ (harvested_tests c5_text).length = 3 := by
  refine ⟨by decide, by decide, by decide, by decide, by decide⟩

/-- C5 (amended): for any input text containing exactly three occurrences
of each recognizable field pattern, the harvesting strategy yields exactly
`min(30, max(3, 3, 3, 10)) = 10` records — the first three built from the
harvested values, the rest padded with sequential defaults. -/
theorem c5_three_occurrences_yield_ten (content : String)
    (hid : (findallField "test_id" content.toList).length = 3)
    (hmod : (findallField "module" content.toList).length = 3)
    (hscen : (findallField "scenario" content.toList).length = 3) :
    (harvested_tests content).length = 10 := by
  unfold harvested_tests
  simp only [List.length_map, List.length_range, hid, hmod, hscen]
  decide

set_option maxRecDepth 100000 in
/-- C5 witness: the amended count at the concrete three-occurrence text. -/
theorem c5_witness : (harvested_tests c5_text).length = 10 :=
  c5_three_occurrences_yield_ten c5_text (by decide) (by decide) (by decide)

end MCPTesting
